import Mathlib

/-!
A verification development for the certificate-maker batch program
(`src/word.py`).  The Python module is shallowly embedded: spreadsheet
cell values become an inductive `Value` type with Python truthiness and
`str` coercion, the string helpers (`str.strip`, `str.replace`,
`str.title`) are modelled character-list by character-list, the word
document is a list of paragraphs holding styled runs, and the output
directory is an association list of file names to document contents in
which a save overwrites any existing file of the same name.  The external
converter (`docx2pdf.convert`) is a black-box oracle parameter that
either succeeds or raises an error message keyed by the source path.
-/

set_option maxRecDepth 4000

namespace CertificateMaker

/-- A spreadsheet cell value as handed over by the workbook reader:
Python `None`, a string, or an integer. -/
inductive Value where
  | vNone : Value
  | vStr (s : String) : Value
  | vInt (n : Int) : Value
deriving DecidableEq, Repr

/-- Python truthiness of a cell value (`if not certificate_id`). -/
def Value.truthy : Value → Bool
  | .vNone => false
  | .vStr s => s != ""
  | .vInt n => n != 0

/-- Python `str(...)` coercion of a cell value. -/
def pyStr : Value → String
  | .vNone => "None"
  | .vStr s => s
  | .vInt n => toString n

/-- The whitespace characters stripped by Python `str.strip()` (ASCII part). -/
def isPySpace (c : Char) : Bool :=
  c == ' ' || c == '\t' || c == '\n' || c == '\r' || c == '\x0b' || c == '\x0c'

/-- `str.strip()` on the underlying character list: drop whitespace from
both ends. -/
def pyStripList (l : List Char) : List Char :=
  ((l.dropWhile isPySpace).reverse.dropWhile isPySpace).reverse

/-- Python `str.strip()`. -/
def pyStrip (s : String) : String := ⟨pyStripList s.data⟩

/-- Python `str.replace("+", "")`: every occurrence of the one-character
pattern is removed, which is exactly a character filter. -/
def removePlus (s : String) : String := ⟨s.data.filter (fun c => c != '+')⟩

/-- `sanitize_certificate_id` from `src/word.py`:
`str(certificate_id).replace("+", "").strip()`. -/
def sanitize_certificate_id (certificate_id : Value) : String :=
  pyStrip (removePlus (pyStr certificate_id))

/-- Python `str.title()` on a character list: a cased (alphabetic)
character is uppercased when the previous character was not cased and
lowercased otherwise; other characters pass through and reset the word. -/
def titleMap : Bool → List Char → List Char
  | _, [] => []
  | prevCased, c :: cs =>
    if c.isAlpha then
      (if prevCased then c.toLower else c.toUpper) :: titleMap true cs
    else
      c :: titleMap false cs

/-- Python `str.title()`. -/
def pyTitle (s : String) : String := ⟨titleMap false s.data⟩

/-- Python `participant_name or ""`: the value itself when truthy,
otherwise the empty string. -/
def pyOrEmpty (v : Value) : Value := if v.truthy then v else .vStr ""

/-- Lines 31-32 of `src/word.py`: the text handed to `run.add_text`,
`display_name.title() if display_name else " "` with
`display_name = str(participant_name or "").strip()`. -/
def display_text (participant_name : Value) : String :=
  let display_name := pyStrip (pyStr (pyOrEmpty participant_name))
  if display_name == "" then " " else pyTitle display_name

/-- A styled text run of a word document. -/
structure TextRun where
  text : String
  fontName : Option String := Option.none
  fontSizePt : Option Nat := Option.none
deriving DecidableEq, Repr

/-- A paragraph: a list of runs. -/
structure Paragraph where
  runs : List TextRun
deriving DecidableEq, Repr

/-- A word document: a list of paragraphs. -/
structure Doc where
  paragraphs : List Paragraph
deriving DecidableEq, Repr

def NAME_PARAGRAPH_INDEX : Nat := 0
def NAME_RUN_INDEX : Nat := 0
def FONT_NAME : String := "Calibri"
def FONT_SIZE_PT : Nat := 16
def HEADER_ROW_INDEX : Nat := 0
def ID_COLUMN_INDEX : Nat := 0
def NAME_COLUMN_INDEX : Nat := 1

/-- The output directory: an association list from file name to document
content, newest entry first. -/
abbrev FS := List (String × Doc)

/-- `doc.save(path)` / writing a file: an existing file of the same name
is overwritten. -/
def fsSave (fs : FS) (name : String) (d : Doc) : FS :=
  (name, d) :: fs.filter (fun e => e.1 != name)

/-- `path.unlink(missing_ok=True)`: remove the file if present, succeed
either way. -/
def fsUnlink (fs : FS) (name : String) : FS :=
  fs.filter (fun e => e.1 != name)

/-- The file names present in the output directory. -/
def fsNames (fs : FS) : List String := fs.map Prod.fst

/-- The external converter `docx2pdf.convert`, keyed by the source
(`.docx`) path: `Option.none` means success, `some msg` means it raises
an exception with that message. -/
abbrev Conv := String → Option String

/-- A converter that succeeds on every input. -/
def convOk : Conv := fun _ => Option.none

/-- `generate_pdf` from `src/word.py` (lines 24-40).  Loading a fresh
copy of the template is pure value passing; indexing
`doc.paragraphs[0].runs[0]` fails with an index error exactly when the
list is too short; the run mutation replaces the placeholder run by one
with the fixed font and the display text appended to its prior text; the
intermediate `.docx` is saved, converted, and unlinked.  Returns the
output directory contents together with `some` error message when an
exception propagates (in which case later statements did not run). -/
def generate_pdf (conv : Conv) (template : Doc) (certificate_id participant_name : Value)
    (fs : FS) : FS × Option String :=
  match template.paragraphs.get? NAME_PARAGRAPH_INDEX with
  | Option.none => (fs, some "IndexError: list index out of range")
  | some para =>
    match para.runs.get? NAME_RUN_INDEX with
    | Option.none => (fs, some "IndexError: list index out of range")
    | some r =>
      let r2 : TextRun :=
        { r with fontName := some FONT_NAME, fontSizePt := some FONT_SIZE_PT,
                 text := r.text ++ display_text participant_name }
      let doc2 : Doc :=
        ⟨template.paragraphs.set NAME_PARAGRAPH_INDEX
          { para with runs := para.runs.set NAME_RUN_INDEX r2 }⟩
      let clean_id := sanitize_certificate_id certificate_id
      let doc_file := clean_id ++ ".docx"
      let pdf_file := clean_id ++ ".pdf"
      let fs1 := fsSave fs doc_file doc2
      match conv doc_file with
      | some err => (fs1, some err)
      | Option.none => (fsUnlink (fsSave fs1 pdf_file doc2) doc_file, Option.none)

/-- A spreadsheet row: the tuple of cell values, in column order. -/
abbrev Row := List Value

/-- The message handed to the progress callback (line 57):
`f"Processing: {certificate_id} -> {participant_name}"`. -/
def logMessage (certificate_id participant_name : Value) : String :=
  "Processing: " ++ pyStr certificate_id ++ " -> " ++ pyStr participant_name

/-- The row loop of `process_certificates` (lines 47-62), carrying the
enumeration index, the running count, the output directory and the
emitted log messages.  Reading a cell that the row tuple does not have
raises an index error; the third component is the returned count, or the
error that propagated out. -/
def processLoop (conv : Conv) (template : Doc) (rows : List Row) (row_index count : Nat)
    (fs : FS) (logs : List String) : FS × List String × Except String Nat :=
  match rows with
  | [] => (fs, logs, Except.ok count)
  | row :: rest =>
    if row_index == HEADER_ROW_INDEX then
      processLoop conv template rest (row_index + 1) count fs logs
    else
      match row.get? ID_COLUMN_INDEX with
      | Option.none => (fs, logs, Except.error "IndexError: tuple index out of range")
      | some certificate_id =>
        if certificate_id.truthy == false then
          processLoop conv template rest (row_index + 1) count fs logs
        else
          match row.get? NAME_COLUMN_INDEX with
          | Option.none => (fs, logs, Except.error "IndexError: tuple index out of range")
          | some participant_name =>
            let logs2 := logs ++ [logMessage certificate_id participant_name]
            match generate_pdf conv template certificate_id participant_name fs with
            | (fs2, some err) => (fs2, logs2, Except.error err)
            | (fs2, Option.none) =>
              processLoop conv template rest (row_index + 1) (count + 1) fs2 logs2

/-- `process_certificates` from `src/word.py` (lines 43-62): iterate the
workbook rows from index `0` with count `0`, starting from the given
output-directory contents and an empty log. -/
def process_certificates (conv : Conv) (template : Doc) (rows : List Row) (fs : FS) :
    FS × List String × Except String Nat :=
  processLoop conv template rows 0 0 fs []

/-- A sample template: one paragraph holding one empty run. -/
def sampleTemplate : Doc := ⟨[⟨[{ text := "" }]⟩]⟩

/-! ### Helper lemmas about stripping -/

lemma head?_dropWhile_false {α} (p : α → Bool) :
    ∀ (l : List α) {c}, (l.dropWhile p).head? = some c → p c = false := by
  intro l
  induction l with
  | nil => intro c h; simp [List.dropWhile] at h
  | cons a as ih =>
    intro c h
    rw [List.dropWhile_cons] at h
    by_cases hp : p a = true
    · rw [if_pos hp] at h; exact ih h
    · rw [if_neg hp] at h
      simp only [List.head?_cons, Option.some.injEq] at h
      subst h
      exact Bool.eq_false_iff.mpr hp

lemma getLast?_dropWhile_of_some {α} (p : α → Bool) (l : List α) {c}
    (h : (l.dropWhile p).getLast? = some c) : l.getLast? = some c := by
  obtain ⟨t, ht⟩ := List.dropWhile_suffix (l := l) (p := p)
  have hne : l.dropWhile p ≠ [] := by
    intro hnil; rw [hnil] at h; simp at h
  rw [← ht, List.getLast?_append_of_ne_nil _ hne]; exact h

lemma head?_pyStripList {l : List Char} {c : Char}
    (h : (pyStripList l).head? = some c) : isPySpace c = false := by
  unfold pyStripList at h
  rw [List.head?_reverse] at h
  have h2 := getLast?_dropWhile_of_some isPySpace _ h
  rw [List.getLast?_reverse] at h2
  exact head?_dropWhile_false isPySpace _ h2

lemma getLast?_pyStripList {l : List Char} {c : Char}
    (h : (pyStripList l).getLast? = some c) : isPySpace c = false := by
  unfold pyStripList at h
  rw [List.getLast?_reverse] at h
  exact head?_dropWhile_false isPySpace _ h

lemma mem_pyStripList {l : List Char} {c : Char} (h : c ∈ pyStripList l) : c ∈ l := by
  unfold pyStripList at h
  rw [List.mem_reverse] at h
  have h2 : c ∈ (l.dropWhile isPySpace).reverse := (List.dropWhile_sublist _).subset h
  rw [List.mem_reverse] at h2
  exact (List.dropWhile_sublist _).subset h2

/-! ### Claim C2 -/

/-- Claim C2, counterexample: the integer cell value `0` is falsy, yet
`sanitize_certificate_id` maps it to `"0"`, not to the empty string, so
"empty/falsy input yields the empty string" fails on falsy non-string
input. -/
theorem C2_counterexample :
    (Value.vInt 0).truthy = false
    ∧ sanitize_certificate_id (Value.vInt 0) = "0"
    ∧ sanitize_certificate_id (Value.vInt 0) ≠ "" := by
  refine ⟨rfl, rfl, ?_⟩; decide

/-- Claim C2 (amended): the sanitizer coerces the identifier to text,
removes every literal `+`, and trims leading and trailing whitespace; it
is total, the result never contains `+` nor starts or ends with
whitespace, `sanitize("A+1 ") = "A1"`, and every falsy *string* input
(only the empty string) yields the empty string — falsy non-string
values such as `0` coerce to their textual form instead. -/
theorem C2_sanitize (v : Value) :
    sanitize_certificate_id (Value.vStr "A+1 ") = "A1"
    ∧ '+' ∉ (sanitize_certificate_id v).data
    ∧ (∀ c, (sanitize_certificate_id v).data.head? = some c → isPySpace c = false)
    ∧ (∀ c, (sanitize_certificate_id v).data.getLast? = some c → isPySpace c = false)
    ∧ (∀ s : String, (Value.vStr s).truthy = false → sanitize_certificate_id (Value.vStr s) = "") := by
  refine ⟨rfl, ?_, ?_, ?_, ?_⟩
  · intro hmem
    have h1 : '+' ∈ (removePlus (pyStr v)).data := mem_pyStripList hmem
    simp only [removePlus, List.mem_filter] at h1
    exact absurd h1.2 (by decide)
  · intro c hc; exact head?_pyStripList hc
  · intro c hc; exact getLast?_pyStripList hc
  · intro s hs
    have : s = "" := by
      simpa [Value.truthy, bne_eq_false_iff_eq] using hs
    subst this; rfl

/-- Claim C2 witness: instantiating the amended sanitizer theorem at the
concrete identifiers `" +x+ "` and `""`. -/
theorem C2_sanitize_witness :
    isPySpace 'x' = false ∧ sanitize_certificate_id (Value.vStr "") = "" :=
  ⟨(C2_sanitize (Value.vStr " +x+ ")).2.2.1 'x' (by decide),
   (C2_sanitize Value.vNone).2.2.2.2 "" (by decide)⟩

/-! ### Claim C3 -/

/-- Claim C3: the first spreadsheet row is skipped unconditionally — the
loop on a non-empty row list immediately recurses past the first row
without touching count, files or log, whatever that row holds; hence a
spreadsheet consisting of a single (header) row returns count `0`,
leaves the output directory untouched and logs nothing. -/
theorem C3_header_skip (conv : Conv) (template : Doc) (r : Row) (rest : List Row) (fs : FS) :
    process_certificates conv template (r :: rest) fs
      = processLoop conv template rest 1 0 fs []
    ∧ process_certificates conv template [r] fs = (fs, [], Except.ok 0) :=
  ⟨rfl, rfl⟩

/-! ### Claim C4 -/

/-- Claim C4: a non-header row whose identifier cell is falsy (empty
string, `None`, or the integer `0`) is skipped silently: the loop state
— count, output directory, log — is exactly what it would be without the
row; no error, no artifact, no callback invocation, regardless of the
name cell. -/
theorem C4_falsy_skip (conv : Conv) (template : Doc) (row : Row) (rest : List Row)
    (row_index count : Nat) (fs : FS) (logs : List String) (certificate_id : Value)
    (hidx : row_index ≠ HEADER_ROW_INDEX)
    (hid : row.get? ID_COLUMN_INDEX = some certificate_id)
    (hfalsy : certificate_id.truthy = false) :
    processLoop conv template (row :: rest) row_index count fs logs
      = processLoop conv template rest (row_index + 1) count fs logs := by
  have hbeq : (row_index == HEADER_ROW_INDEX) = false := by simpa using hidx
  conv_lhs => rw [processLoop]
  simp only [hbeq, Bool.false_eq_true, if_false, hid, hfalsy, beq_self_eq_true, if_true]

/-- Claim C4 witness: a row whose identifier cell is the falsy integer
`0` and whose name cell is non-empty is skipped. -/
theorem C4_falsy_skip_witness :
    processLoop convOk sampleTemplate [[Value.vInt 0, Value.vStr "Bob"]] 1 0 [] []
      = processLoop convOk sampleTemplate [] 2 0 [] [] :=
  C4_falsy_skip convOk sampleTemplate [Value.vInt 0, Value.vStr "Bob"] [] 1 0 [] []
    (Value.vInt 0) (by decide) rfl rfl

/-! ### Claim C9 -/

/-- Claim C9: a non-header row with a truthy identifier but fewer than
two cells makes the loop raise an index error at the unguarded read of
the name cell: the batch aborts there (remaining rows are dropped), with
the directory and log as they were before the row. -/
theorem C9_short_row_aborts (conv : Conv) (template : Doc) (row : Row) (rest : List Row)
    (row_index count : Nat) (fs : FS) (logs : List String) (certificate_id : Value)
    (hidx : row_index ≠ HEADER_ROW_INDEX)
    (hid : row.get? ID_COLUMN_INDEX = some certificate_id)
    (htruthy : certificate_id.truthy = true)
    (hshort : row.length < 2) :
    processLoop conv template (row :: rest) row_index count fs logs
      = (fs, logs, Except.error "IndexError: tuple index out of range") := by
  have hname : row.get? NAME_COLUMN_INDEX = Option.none := by
    rw [List.get?_eq_none]
    show row.length ≤ 1
    omega
  have hbeq : (row_index == HEADER_ROW_INDEX) = false := by simpa using hidx
  conv_lhs => rw [processLoop]
  simp only [hbeq, Bool.false_eq_true, if_false, hid, htruthy, hname, beq_iff_eq,
    Bool.true_eq_false, if_false]

/-- Claim C9 witness: the one-cell row `("X1",)` with a truthy identifier
aborts the batch with an index error even though further rows follow. -/
theorem C9_short_row_aborts_witness :
    processLoop convOk sampleTemplate [[Value.vStr "X1"], [Value.vStr "Y2", Value.vStr "n"]]
      1 0 [] [] = ([], [], Except.error "IndexError: tuple index out of range") :=
  C9_short_row_aborts convOk sampleTemplate [Value.vStr "X1"]
    [[Value.vStr "Y2", Value.vStr "n"]] 1 0 [] [] (Value.vStr "X1")
    (by decide) rfl (by decide) (by decide)

/-! ### The rendered document -/

/-- The placeholder run after `generate_pdf` mutated it: fixed font face
and size, display text appended to the pre-existing text. -/
def renderedRun (r : TextRun) (participant_name : Value) : TextRun :=
  { r with fontName := some FONT_NAME, fontSizePt := some FONT_SIZE_PT,
           text := r.text ++ display_text participant_name }

/-- The document `generate_pdf` saves, for a template whose placeholder
paragraph and run exist. -/
def renderedDoc (template : Doc) (para : Paragraph) (r : TextRun) (participant_name : Value) : Doc :=
  ⟨template.paragraphs.set NAME_PARAGRAPH_INDEX
    { para with runs := para.runs.set NAME_RUN_INDEX (renderedRun r participant_name) }⟩

/-- A converter that raises `"conversion failed"` on every input. -/
def convFail : Conv := fun _ => some "conversion failed"

/-! ### Output-directory lemmas -/

lemma fsNames_cons (n : String) (d : Doc) (fs : FS) :
    fsNames ((n, d) :: fs) = n :: fsNames fs := rfl

lemma fsNames_fsSave (fs : FS) (n : String) (d : Doc) :
    fsNames (fsSave fs n d) = n :: fsNames (fsUnlink fs n) := rfl

lemma fsNames_fsUnlink (fs : FS) (n : String) :
    fsNames (fsUnlink fs n) = (fsNames fs).filter (fun m => m != n) := by
  simp only [fsNames, fsUnlink, List.filter_map]
  rfl

lemma fsSave_of_not_mem (fs : FS) (n : String) (d : Doc) (h : n ∉ fsNames fs) :
    fsSave fs n d = (n, d) :: fs := by
  unfold fsSave
  congr 1
  rw [List.filter_eq_self]
  intro e he
  have hne : e.1 ≠ n := by
    intro hh
    exact h (hh ▸ List.mem_map_of_mem Prod.fst he)
  simpa using hne

lemma fsUnlink_of_not_mem (fs : FS) (n : String) (h : n ∉ fsNames fs) :
    fsUnlink fs n = fs := by
  unfold fsUnlink
  rw [List.filter_eq_self]
  intro e he
  have hne : e.1 ≠ n := by
    intro hh
    exact h (hh ▸ List.mem_map_of_mem Prod.fst he)
  simpa using hne

lemma fsUnlink_cons_self (fs : FS) (n : String) (d : Doc) :
    fsUnlink ((n, d) :: fs) n = fsUnlink fs n := by
  simp [fsUnlink, List.filter_cons]

lemma fsUnlink_cons_ne (fs : FS) (m n : String) (d : Doc) (h : m ≠ n) :
    fsUnlink ((m, d) :: fs) n = (m, d) :: fsUnlink fs n := by
  simp [fsUnlink, List.filter_cons, h]

/-- The net effect of saving the intermediate file, saving the rendered
file, and unlinking the intermediate, when neither name is present yet:
exactly one new file. -/
lemma step_fresh (fs : FS) (dn pn : String) (d : Doc)
    (h1 : dn ∉ fsNames fs) (h2 : pn ∉ fsNames fs) (h3 : pn ≠ dn) :
    fsUnlink (fsSave (fsSave fs dn d) pn d) dn = (pn, d) :: fs := by
  rw [fsSave_of_not_mem fs dn d h1]
  rw [fsSave_of_not_mem ((dn, d) :: fs) pn d (by
    rw [fsNames_cons]
    simp only [List.mem_cons]
    rintro (hc | hc)
    · exact h3 hc
    · exact h2 hc)]
  rw [fsUnlink_cons_ne _ _ _ _ h3, fsUnlink_cons_self, fsUnlink_of_not_mem fs dn h1]

/-! ### File-name suffix lemmas -/

lemma getLast?_append_suffix (s t : String) (h : t.data ≠ []) :
    (s ++ t).data.getLast? = t.data.getLast? := by
  rw [String.data_append, List.getLast?_append_of_ne_nil _ h]

lemma pdfName_getLast (s : String) : (s ++ ".pdf").data.getLast? = some 'f' := by
  rw [getLast?_append_suffix s ".pdf" (by decide)]
  rfl

lemma docxName_getLast (s : String) : (s ++ ".docx").data.getLast? = some 'x' := by
  rw [getLast?_append_suffix s ".docx" (by decide)]
  rfl

lemma pdfName_ne_docxName (s t : String) : s ++ ".pdf" ≠ t ++ ".docx" := by
  intro h
  have h2 := congrArg (fun u : String => u.data.getLast?) h
  simp only [] at h2
  rw [pdfName_getLast, docxName_getLast] at h2
  simp at h2

lemma pdfName_inj {s t : String} (h : s ++ ".pdf" = t ++ ".pdf") : s = t := by
  have h2 : s.data ++ ".pdf".data = t.data ++ ".pdf".data := by
    rw [← String.data_append, ← String.data_append, h]
  exact String.ext (List.append_cancel_right h2)

/-! ### `generate_pdf` on a well-formed template -/

lemma generate_pdf_conv_ok (conv : Conv) (template : Doc) (cid nm : Value) (fs : FS)
    (para : Paragraph) (r : TextRun)
    (hp : template.paragraphs.get? NAME_PARAGRAPH_INDEX = some para)
    (hr : para.runs.get? NAME_RUN_INDEX = some r)
    (hconv : conv (sanitize_certificate_id cid ++ ".docx") = Option.none) :
    generate_pdf conv template cid nm fs
      = (fsUnlink
          (fsSave (fsSave fs (sanitize_certificate_id cid ++ ".docx") (renderedDoc template para r nm))
            (sanitize_certificate_id cid ++ ".pdf") (renderedDoc template para r nm))
          (sanitize_certificate_id cid ++ ".docx"), Option.none) := by
  unfold generate_pdf
  simp only [hp, hr, hconv, renderedDoc, renderedRun]

lemma generate_pdf_conv_err (conv : Conv) (template : Doc) (cid nm : Value) (fs : FS)
    (para : Paragraph) (r : TextRun) (err : String)
    (hp : template.paragraphs.get? NAME_PARAGRAPH_INDEX = some para)
    (hr : para.runs.get? NAME_RUN_INDEX = some r)
    (hconv : conv (sanitize_certificate_id cid ++ ".docx") = some err) :
    generate_pdf conv template cid nm fs
      = (fsSave fs (sanitize_certificate_id cid ++ ".docx") (renderedDoc template para r nm),
         some err) := by
  unfold generate_pdf
  simp only [hp, hr, hconv, renderedDoc, renderedRun]

/-- Names produced by one save-intermediate / save-rendered / unlink
step, as a function of the starting names only (the document contents
play no role). -/
lemma fsNames_render_step (fs : FS) (dn pn : String) (d : Doc) :
    fsNames (fsUnlink (fsSave (fsSave fs dn d) pn d) dn)
      = (pn :: ((dn :: (fsNames fs).filter (fun m => m != dn)).filter
          (fun m => m != pn))).filter (fun m => m != dn) := by
  rw [fsNames_fsUnlink, fsNames_fsSave, fsNames_fsUnlink, fsNames_fsSave, fsNames_fsUnlink]

/-! ### Claim C5 -/

/-- Claim C5: the text written into the placeholder run is the name
coerced to text (a falsy name becoming the empty string) and stripped;
when the stripped text is non-empty the Python title-case transformation
is applied — `"jane doe"` becomes `"Jane Doe"` — and when it is empty
(empty, whitespace-only, or missing name) a single space is written
instead. -/
theorem C5_display (participant_name : Value) :
    (pyStrip (pyStr (pyOrEmpty participant_name)) = "" → display_text participant_name = " ")
    ∧ (∀ s : String, pyStrip (pyStr (pyOrEmpty participant_name)) = s → s ≠ "" →
        display_text participant_name = pyTitle s)
    ∧ display_text (Value.vStr "jane doe") = "Jane Doe"
    ∧ display_text (Value.vStr "   ") = " "
    ∧ display_text Value.vNone = " " := by
  refine ⟨?_, ?_, rfl, rfl, rfl⟩
  · intro h
    simp [display_text, h]
  · intro s hs hne
    simp only [display_text, hs]
    rw [if_neg (by simpa using hne)]

/-- Claim C5 witness: instantiating the display-text theorem at the
concrete names `"jane doe"` and the falsy integer `0`. -/
theorem C5_display_witness :
    display_text (Value.vStr "jane doe") = pyTitle "jane doe"
    ∧ display_text (Value.vInt 0) = " " :=
  ⟨(C5_display (Value.vStr "jane doe")).2.1 "jane doe" rfl (by decide),
   (C5_display (Value.vInt 0)).1 rfl⟩

/-! ### Claim C6 -/

/-- Claim C6: the output file names depend on the sanitized identifier
only.  Two renders differing only in the participant name leave the same
file names (and fail alike); under a fresh directory slot exactly one
new artifact, `<stem>.pdf`, is added; and `"ID+001"` yields stem
`"ID001"`. -/
theorem C6_filename_determinism (conv : Conv) (template : Doc) (cid n1 n2 : Value) (fs : FS) :
    fsNames (generate_pdf conv template cid n1 fs).1
      = fsNames (generate_pdf conv template cid n2 fs).1
    ∧ (generate_pdf conv template cid n1 fs).2.isSome
      = (generate_pdf conv template cid n2 fs).2.isSome
    ∧ sanitize_certificate_id (Value.vStr "ID+001") = "ID001"
    ∧ (∀ para r, template.paragraphs.get? NAME_PARAGRAPH_INDEX = some para →
        para.runs.get? NAME_RUN_INDEX = some r →
        conv (sanitize_certificate_id cid ++ ".docx") = Option.none →
        (sanitize_certificate_id cid ++ ".docx") ∉ fsNames fs →
        (sanitize_certificate_id cid ++ ".pdf") ∉ fsNames fs →
        (generate_pdf conv template cid n1 fs).1
          = (sanitize_certificate_id cid ++ ".pdf",
             renderedDoc template para r n1) :: fs) := by
  refine ⟨?_, ?_, rfl, ?_⟩
  · cases hpara : template.paragraphs.get? NAME_PARAGRAPH_INDEX with
    | none => unfold generate_pdf; simp only [hpara]
    | some para =>
      cases hrun : para.runs.get? NAME_RUN_INDEX with
      | none => unfold generate_pdf; simp only [hpara, hrun]
      | some r =>
        cases hcv : conv (sanitize_certificate_id cid ++ ".docx") with
        | some err =>
          rw [generate_pdf_conv_err conv template cid n1 fs para r err hpara hrun hcv,
            generate_pdf_conv_err conv template cid n2 fs para r err hpara hrun hcv]
          rw [fsNames_fsSave, fsNames_fsSave]
        | none =>
          rw [generate_pdf_conv_ok conv template cid n1 fs para r hpara hrun hcv,
            generate_pdf_conv_ok conv template cid n2 fs para r hpara hrun hcv]
          rw [fsNames_render_step, fsNames_render_step]
  · cases hpara : template.paragraphs.get? NAME_PARAGRAPH_INDEX with
    | none => unfold generate_pdf; simp only [hpara]
    | some para =>
      cases hrun : para.runs.get? NAME_RUN_INDEX with
      | none => unfold generate_pdf; simp only [hpara, hrun]
      | some r =>
        cases hcv : conv (sanitize_certificate_id cid ++ ".docx") with
        | some err =>
          rw [generate_pdf_conv_err conv template cid n1 fs para r err hpara hrun hcv,
            generate_pdf_conv_err conv template cid n2 fs para r err hpara hrun hcv]
        | none =>
          rw [generate_pdf_conv_ok conv template cid n1 fs para r hpara hrun hcv,
            generate_pdf_conv_ok conv template cid n2 fs para r hpara hrun hcv]
  · intro para r hpara hrun hcv hdn hpn
    rw [generate_pdf_conv_ok conv template cid n1 fs para r hpara hrun hcv]
    exact step_fresh fs _ _ _ hdn hpn (pdfName_ne_docxName _ _)

/-- Claim C6 witness: two renders of identifier `"ID+001"` with names
`"ann"` and `"bob"` into an empty directory produce the same single file
name, `ID001.pdf`. -/
theorem C6_filename_determinism_witness :
    fsNames (generate_pdf convOk sampleTemplate (Value.vStr "ID+001") (Value.vStr "ann") []).1
      = fsNames (generate_pdf convOk sampleTemplate (Value.vStr "ID+001") (Value.vStr "bob") []).1
    ∧ (generate_pdf convOk sampleTemplate (Value.vStr "ID+001") (Value.vStr "ann") []).1
        = [("ID001.pdf", renderedDoc sampleTemplate ⟨[{ text := "" }]⟩ { text := "" }
            (Value.vStr "ann"))] :=
  ⟨(C6_filename_determinism convOk sampleTemplate (Value.vStr "ID+001")
      (Value.vStr "ann") (Value.vStr "bob") []).1,
   (C6_filename_determinism convOk sampleTemplate (Value.vStr "ID+001")
      (Value.vStr "ann") (Value.vStr "bob") []).2.2.2 ⟨[{ text := "" }]⟩ { text := "" }
      rfl rfl rfl (by simp [fsNames]) (by simp [fsNames])⟩

/-! ### Claim C7 -/

/-- Claim C7: a failure inside the render step is not caught per row:
the loop stops at the failing row, returns that error, keeps the files
as the failed render left them (earlier artifacts stay in place, no
rollback), keeps the log emitted so far, and never touches the remaining
rows. -/
theorem C7_error_propagates (conv : Conv) (template : Doc) (row : Row) (rest : List Row)
    (row_index count : Nat) (fs : FS) (logs : List String) (certificate_id participant_name : Value)
    (fs2 : FS) (err : String)
    (hidx : row_index ≠ HEADER_ROW_INDEX)
    (hid : row.get? ID_COLUMN_INDEX = some certificate_id)
    (htruthy : certificate_id.truthy = true)
    (hname : row.get? NAME_COLUMN_INDEX = some participant_name)
    (hgen : generate_pdf conv template certificate_id participant_name fs = (fs2, some err)) :
    processLoop conv template (row :: rest) row_index count fs logs
      = (fs2, logs ++ [logMessage certificate_id participant_name], Except.error err) := by
  have hbeq : (row_index == HEADER_ROW_INDEX) = false := by simpa using hidx
  conv_lhs => rw [processLoop]
  simp only [hbeq, Bool.false_eq_true, if_false, hid, htruthy, beq_iff_eq,
    Bool.true_eq_false, if_false, hname, hgen]

/-- Claim C7 witness: with a converter that always fails, the first
qualifying row aborts the whole batch; an artifact already present from
before (`Z.pdf`) is left in place, the failed row's intermediate `.docx`
remains, and the following row is never processed. -/
theorem C7_error_propagates_witness :
    processLoop convFail sampleTemplate
      [[Value.vStr "A", Value.vStr "b"], [Value.vStr "C", Value.vStr "d"]] 1 0
      [("Z.pdf", sampleTemplate)] []
      = ([("A.docx", renderedDoc sampleTemplate ⟨[{ text := "" }]⟩ { text := "" }
            (Value.vStr "b")), ("Z.pdf", sampleTemplate)],
         ["Processing: A -> b"], Except.error "conversion failed") :=
  C7_error_propagates convFail sampleTemplate [Value.vStr "A", Value.vStr "b"]
    [[Value.vStr "C", Value.vStr "d"]] 1 0 [("Z.pdf", sampleTemplate)] []
    (Value.vStr "A") (Value.vStr "b") _ "conversion failed"
    (by decide) rfl (by decide) rfl
    (generate_pdf_conv_err convFail sampleTemplate (Value.vStr "A") (Value.vStr "b")
      [("Z.pdf", sampleTemplate)] ⟨[{ text := "" }]⟩ { text := "" } "conversion failed"
      rfl rfl rfl)

/-! ### Claim C8 -/

/-- Claim C8: the display text is appended, not substituted — the saved
document is the template with only the first run of the first paragraph
replaced by `renderedRun r nm`, whose text is the run's pre-existing
text followed by the display text; the remaining runs `rs` of that
paragraph and all other paragraphs `ps` are carried over unchanged. -/
theorem C8_append_frame (conv : Conv) (template : Doc) (cid nm : Value) (fs : FS)
    (para : Paragraph) (ps : List Paragraph) (r : TextRun) (rs : List TextRun)
    (hp : template.paragraphs = para :: ps)
    (hr : para.runs = r :: rs) :
    generate_pdf conv template cid nm fs
      = (match conv (sanitize_certificate_id cid ++ ".docx") with
         | some err =>
           (fsSave fs (sanitize_certificate_id cid ++ ".docx")
             ⟨⟨renderedRun r nm :: rs⟩ :: ps⟩, some err)
         | Option.none =>
           (fsUnlink
             (fsSave
               (fsSave fs (sanitize_certificate_id cid ++ ".docx")
                 ⟨⟨renderedRun r nm :: rs⟩ :: ps⟩)
               (sanitize_certificate_id cid ++ ".pdf") ⟨⟨renderedRun r nm :: rs⟩ :: ps⟩)
             (sanitize_certificate_id cid ++ ".docx"), Option.none))
    ∧ (renderedRun r nm).text = r.text ++ display_text nm
    ∧ (renderedRun r nm).fontName = some FONT_NAME
    ∧ (renderedRun r nm).fontSizePt = some FONT_SIZE_PT := by
  have h1 : template.paragraphs.get? NAME_PARAGRAPH_INDEX = some para := by rw [hp]; rfl
  have h2 : para.runs.get? NAME_RUN_INDEX = some r := by rw [hr]; rfl
  refine ⟨?_, rfl, rfl, rfl⟩
  unfold generate_pdf
  simp only [h1, h2]
  rw [hp, hr]
  rfl

/-- Claim C8 witness: rendering into a template whose first paragraph
has a non-empty placeholder run (`"Dear "`) plus a second run, and a
second paragraph: the placeholder keeps its text with `"Ann"` appended,
everything else is untouched. -/
theorem C8_append_frame_witness :
    generate_pdf convOk
      ⟨[⟨[{ text := "Dear " }, { text := "tail", fontName := some "Arial" }]⟩,
        ⟨[{ text := "second" }]⟩]⟩ (Value.vStr "A1") (Value.vStr "ann") []
      = (fsUnlink
          (fsSave
            (fsSave [] ("A1" ++ ".docx")
              ⟨⟨renderedRun { text := "Dear " } (Value.vStr "ann")
                  :: [{ text := "tail", fontName := some "Arial" }]⟩
                :: [⟨[{ text := "second" }]⟩]⟩)
            ("A1" ++ ".pdf")
            ⟨⟨renderedRun { text := "Dear " } (Value.vStr "ann")
                :: [{ text := "tail", fontName := some "Arial" }]⟩
              :: [⟨[{ text := "second" }]⟩]⟩)
          ("A1" ++ ".docx"), Option.none)
    ∧ (renderedRun { text := "Dear " } (Value.vStr "ann")).text = "Dear " ++ "Ann" :=
  ⟨(C8_append_frame convOk
      ⟨[⟨[{ text := "Dear " }, { text := "tail", fontName := some "Arial" }]⟩,
        ⟨[{ text := "second" }]⟩]⟩ (Value.vStr "A1") (Value.vStr "ann") []
      ⟨[{ text := "Dear " }, { text := "tail", fontName := some "Arial" }]⟩
      [⟨[{ text := "second" }]⟩] { text := "Dear " }
      [{ text := "tail", fontName := some "Arial" }] rfl rfl).1,
   (C8_append_frame convOk
      ⟨[⟨[{ text := "Dear " }, { text := "tail", fontName := some "Arial" }]⟩,
        ⟨[{ text := "second" }]⟩]⟩ (Value.vStr "A1") (Value.vStr "ann") []
      ⟨[{ text := "Dear " }, { text := "tail", fontName := some "Arial" }]⟩
      [⟨[{ text := "second" }]⟩] { text := "Dear " }
      [{ text := "tail", fontName := some "Arial" }] rfl rfl).2.1⟩

/-! ### Claim C10 -/

/-- Claim C10: a truthy identifier whose sanitized form is empty (for
example `"+"`) is processed, not skipped: the loop logs it, increments
the count, and continues with an output directory whose rendered
artifact is named exactly `".pdf"` (intermediate `".docx"`); in the
resulting directory the name `".pdf"` occurs exactly once even when a
previous such row already wrote it, so later rows overwrite earlier
ones. -/
theorem C10_empty_stem (conv : Conv) (template : Doc) (row : Row) (rest : List Row)
    (row_index count : Nat) (fs : FS) (logs : List String) (cid nm : Value)
    (para : Paragraph) (r : TextRun)
    (hidx : row_index ≠ HEADER_ROW_INDEX)
    (hid : row.get? ID_COLUMN_INDEX = some cid)
    (htruthy : cid.truthy = true)
    (hstem : sanitize_certificate_id cid = "")
    (hname : row.get? NAME_COLUMN_INDEX = some nm)
    (hp : template.paragraphs.get? NAME_PARAGRAPH_INDEX = some para)
    (hr : para.runs.get? NAME_RUN_INDEX = some r)
    (hconv : conv ".docx" = Option.none) :
    processLoop conv template (row :: rest) row_index count fs logs
      = processLoop conv template rest (row_index + 1) (count + 1)
          (fsUnlink (fsSave (fsSave fs ".docx" (renderedDoc template para r nm)) ".pdf"
            (renderedDoc template para r nm)) ".docx")
          (logs ++ [logMessage cid nm])
    ∧ (fsNames (fsUnlink (fsSave (fsSave fs ".docx" (renderedDoc template para r nm)) ".pdf"
          (renderedDoc template para r nm)) ".docx")).count ".pdf" = 1 := by
  have hgen : generate_pdf conv template cid nm fs
      = (fsUnlink (fsSave (fsSave fs ".docx" (renderedDoc template para r nm)) ".pdf"
          (renderedDoc template para r nm)) ".docx", Option.none) := by
    have hc2 : conv (sanitize_certificate_id cid ++ ".docx") = Option.none := by
      rw [hstem]; exact hconv
    have := generate_pdf_conv_ok conv template cid nm fs para r hp hr hc2
    rw [hstem] at this
    exact this
  constructor
  · have hbeq : (row_index == HEADER_ROW_INDEX) = false := by simpa using hidx
    conv_lhs => rw [processLoop]
    simp only [hbeq, Bool.false_eq_true, if_false, hid, htruthy, beq_iff_eq,
      Bool.true_eq_false, if_false, hname, hgen]
  · rw [fsNames_render_step]
    rw [List.filter_cons_of_pos (by decide)]
    rw [List.count_cons_self]
    have hnotmem : (".pdf" : String) ∉
        (((".docx" :: (fsNames fs).filter (fun m => m != ".docx")).filter
          (fun m => m != ".pdf")).filter (fun m => m != ".docx")) := by
      intro hmem
      rw [List.mem_filter] at hmem
      rcases hmem with ⟨hmem2, _⟩
      rw [List.mem_filter] at hmem2
      rcases hmem2 with ⟨_, hfalse⟩
      simp at hfalse
    rw [List.count_eq_zero.mpr hnotmem]

/-- Claim C10 witness: the row `("+", "b")` — truthy identifier, empty
stem — is processed on top of a directory already holding a `".pdf"`
from an earlier such row, and afterwards exactly one `".pdf"` remains. -/
theorem C10_empty_stem_witness :
    processLoop convOk sampleTemplate [[Value.vStr "+", Value.vStr "b"]] 1 0
      [(".pdf", sampleTemplate)] []
      = processLoop convOk sampleTemplate [] 2 1
          (fsUnlink (fsSave (fsSave [(".pdf", sampleTemplate)] ".docx"
              (renderedDoc sampleTemplate ⟨[{ text := "" }]⟩ { text := "" } (Value.vStr "b")))
            ".pdf" (renderedDoc sampleTemplate ⟨[{ text := "" }]⟩ { text := "" }
              (Value.vStr "b"))) ".docx")
          ["Processing: + -> b"]
    ∧ (fsNames (fsUnlink (fsSave (fsSave [(".pdf", sampleTemplate)] ".docx"
          (renderedDoc sampleTemplate ⟨[{ text := "" }]⟩ { text := "" } (Value.vStr "b")))
        ".pdf" (renderedDoc sampleTemplate ⟨[{ text := "" }]⟩ { text := "" }
          (Value.vStr "b"))) ".docx")).count ".pdf" = 1 :=
  C10_empty_stem convOk sampleTemplate [Value.vStr "+", Value.vStr "b"] [] 1 0
    [(".pdf", sampleTemplate)] [] (Value.vStr "+") (Value.vStr "b")
    ⟨[{ text := "" }]⟩ { text := "" } (by decide) rfl (by decide) (by decide) rfl rfl rfl rfl

/-! ### Claim C1 -/

/-- The identifier cell of a row (`Value.vNone` when absent). -/
def idOf (row : Row) : Value := (row.get? ID_COLUMN_INDEX).getD Value.vNone

/-- The name cell of a row (`Value.vNone` when absent). -/
def nameOf (row : Row) : Value := (row.get? NAME_COLUMN_INDEX).getD Value.vNone

/-- The output file stem a row yields. -/
def rowStem (row : Row) : String := sanitize_certificate_id (idOf row)

/-- A data row that is fully processed: truthy identifier and a present
name cell. -/
def goodRow (row : Row) : Bool :=
  (match row.get? ID_COLUMN_INDEX with
   | some c => c.truthy
   | Option.none => false) && decide (NAME_COLUMN_INDEX < row.length)

/-- On fully processed rows with an always-succeeding converter, the loop
renders every row in order: the directory is the fold of the render step,
one log message is emitted per row, and the returned count grows by the
number of rows. -/
lemma processLoop_all_good (template : Doc) (para : Paragraph) (r : TextRun)
    (hp : template.paragraphs.get? NAME_PARAGRAPH_INDEX = some para)
    (hr : para.runs.get? NAME_RUN_INDEX = some r) :
    ∀ (rows : List Row) (row_index count : Nat) (fs : FS) (logs : List String),
      row_index ≠ HEADER_ROW_INDEX →
      (∀ row ∈ rows, goodRow row = true) →
      processLoop convOk template rows row_index count fs logs
        = (rows.foldl
            (fun a row => (generate_pdf convOk template (idOf row) (nameOf row) a).1) fs,
           logs ++ rows.map (fun row => logMessage (idOf row) (nameOf row)),
           Except.ok (count + rows.length)) := by
  intro rows
  induction rows with
  | nil =>
    intro row_index count fs logs hidx hgood
    simp [processLoop]
  | cons row rest ih =>
    intro row_index count fs logs hidx hgood
    have hrow := hgood row (List.mem_cons_self _ _)
    unfold goodRow at hrow
    rw [Bool.and_eq_true] at hrow
    cases hc : row.get? ID_COLUMN_INDEX with
    | none => rw [hc] at hrow; simp at hrow
    | some cid =>
      rw [hc] at hrow
      have htruthy : cid.truthy = true := hrow.1
      have hlen : NAME_COLUMN_INDEX < row.length := of_decide_eq_true hrow.2
      cases hn : row.get? NAME_COLUMN_INDEX with
      | none =>
        exfalso
        have := List.get?_eq_none.mp hn
        omega
      | some nm =>
        have hidOf : idOf row = cid := by unfold idOf; rw [hc]; rfl
        have hnmOf : nameOf row = nm := by unfold nameOf; rw [hn]; rfl
        have hbeq : (row_index == HEADER_ROW_INDEX) = false := by simpa using hidx
        have hgen := generate_pdf_conv_ok convOk template cid nm fs para r hp hr rfl
        conv_lhs => rw [processLoop]
        simp only [hbeq, Bool.false_eq_true, if_false, hc, htruthy, beq_iff_eq,
          Bool.true_eq_false, if_false, hn, hgen]
        rw [ih (row_index + 1) (count + 1) _ _
          (by simp [HEADER_ROW_INDEX]) (fun row' hm => hgood row' (List.mem_cons_of_mem _ hm))]
        rw [List.foldl_cons, List.map_cons, hidOf, hnmOf, hgen]
        have hcount : count + 1 + rest.length = count + (row :: rest).length := by
          simp only [List.length_cons]
          omega
        rw [hcount]
        simp [List.append_assoc]

/-- Folding the render step over rows with pairwise-distinct stems, over
a directory that holds only `.pdf`-suffixed names none of which collides
with a row's output, adds exactly one `<stem>.pdf` per row (latest
first). -/
lemma fsNames_foldl_render (template : Doc) (para : Paragraph) (r : TextRun)
    (hp : template.paragraphs.get? NAME_PARAGRAPH_INDEX = some para)
    (hr : para.runs.get? NAME_RUN_INDEX = some r) :
    ∀ (rows : List Row) (fs : FS),
      (∀ e ∈ fs, e.1.data.getLast? = some 'f') →
      (∀ row ∈ rows, (rowStem row ++ ".pdf") ∉ fsNames fs) →
      (rows.map rowStem).Nodup →
      fsNames (rows.foldl
          (fun a row => (generate_pdf convOk template (idOf row) (nameOf row) a).1) fs)
        = (rows.map (fun row => rowStem row ++ ".pdf")).reverse ++ fsNames fs := by
  intro rows
  induction rows with
  | nil =>
    intro fs hf hfresh hnodup
    simp
  | cons row rest ih =>
    intro fs hf hfresh hnodup
    rw [List.foldl_cons]
    have hdn : (sanitize_certificate_id (idOf row) ++ ".docx") ∉ fsNames fs := by
      intro hmem
      rw [fsNames, List.mem_map] at hmem
      obtain ⟨e, he, heq⟩ := hmem
      have hlast := hf e he
      rw [heq, docxName_getLast] at hlast
      simp at hlast
    have hpn : (sanitize_certificate_id (idOf row) ++ ".pdf") ∉ fsNames fs :=
      hfresh row (List.mem_cons_self _ _)
    have hstep : (generate_pdf convOk template (idOf row) (nameOf row) fs).1
        = (rowStem row ++ ".pdf", renderedDoc template para r (nameOf row)) :: fs := by
      rw [generate_pdf_conv_ok convOk template (idOf row) (nameOf row) fs para r hp hr rfl]
      exact step_fresh fs _ _ _ hdn hpn (pdfName_ne_docxName _ _)
    rw [hstep]
    rw [List.map_cons, List.nodup_cons] at hnodup
    rw [ih ((rowStem row ++ ".pdf", renderedDoc template para r (nameOf row)) :: fs)
      ?_ ?_ hnodup.2]
    · rw [fsNames_cons]
      simp [List.reverse_cons]
    · intro e he
      rw [List.mem_cons] at he
      rcases he with he | he
      · rw [he]
        exact pdfName_getLast _
      · exact hf e he
    · intro row' hm
      rw [fsNames_cons, List.mem_cons]
      rintro (hcase | hcase)
      · have hst : rowStem row' = rowStem row := pdfName_inj hcase
        exact hnodup.1 (hst ▸ List.mem_map_of_mem rowStem hm)
      · exact hfresh row' (List.mem_cons_of_mem _ hm) hcase

/-- Three rows, the two data rows carrying the same identifier `"A"`. -/
def dupRows : List Row :=
  [[Value.vStr "id", Value.vStr "nm"], [Value.vStr "A", Value.vStr "x"],
   [Value.vStr "A", Value.vStr "y"]]

/-- Claim C1, counterexample: a spreadsheet with two data rows, both with
the non-empty identifier `"A"`: `process_certificates` returns `2`, yet
only one rendered file exists afterwards — the second row overwrote the
first — so "exactly N rendered output files" fails. -/
theorem C1_counterexample :
    (process_certificates convOk sampleTemplate dupRows []).2.2 = Except.ok 2
    ∧ ((process_certificates convOk sampleTemplate dupRows []).1).length = 1
    ∧ (1 : Nat) ≠ 2 :=
  ⟨rfl, rfl, by decide⟩

/-- Claim C1 (amended): for a spreadsheet whose data rows each carry a
truthy identifier and a name cell, *and whose sanitized identifiers are
pairwise distinct*, `process_certificates` with an always-succeeding
converter over an initially empty output directory returns the number of
data rows, the directory afterwards holds exactly that many files — one
`<stem>.pdf` per row — and one progress message was logged per row. -/
theorem C1_count_distinct (template : Doc) (para : Paragraph) (r : TextRun)
    (header : Row) (rows : List Row)
    (hp : template.paragraphs.get? NAME_PARAGRAPH_INDEX = some para)
    (hr : para.runs.get? NAME_RUN_INDEX = some r)
    (hgood : ∀ row ∈ rows, goodRow row = true)
    (hnodup : (rows.map rowStem).Nodup) :
    (process_certificates convOk template (header :: rows) []).2.2 = Except.ok rows.length
    ∧ fsNames (process_certificates convOk template (header :: rows) []).1
        = (rows.map (fun row => rowStem row ++ ".pdf")).reverse
    ∧ ((process_certificates convOk template (header :: rows) []).1).length = rows.length
    ∧ (process_certificates convOk template (header :: rows) []).2.1
        = rows.map (fun row => logMessage (idOf row) (nameOf row)) := by
  have h0 : process_certificates convOk template (header :: rows) []
      = processLoop convOk template rows 1 0 [] [] := rfl
  have hloop := processLoop_all_good template para r hp hr rows 1 0 [] []
    (by simp [HEADER_ROW_INDEX]) hgood
  have hnames := fsNames_foldl_render template para r hp hr rows []
    (by simp [fsNames]) (by simp [fsNames]) hnodup
  have hnames2 : fsNames (rows.foldl
      (fun a row => (generate_pdf convOk template (idOf row) (nameOf row) a).1) [])
      = (rows.map (fun row => rowStem row ++ ".pdf")).reverse := by
    simpa [fsNames] using hnames
  rw [h0, hloop]
  refine ⟨by simp, by simpa using hnames2, ?_, by simp⟩
  have hlen : ∀ gs : FS, gs.length = (fsNames gs).length := by
    intro gs; simp [fsNames]
  rw [hlen]
  rw [show (List.foldl (fun a row => (generate_pdf convOk template (idOf row) (nameOf row) a).1)
    [] rows, ([] : List String) ++ rows.map (fun row => logMessage (idOf row) (nameOf row)),
    Except.ok (0 + rows.length)).1 = List.foldl
      (fun a row => (generate_pdf convOk template (idOf row) (nameOf row) a).1) [] rows from rfl]
  rw [hnames2]
  simp

/-- Two data rows with distinct identifiers. -/
def twoRows : List Row :=
  [[Value.vStr "A", Value.vStr "ann"], [Value.vStr "B", Value.vStr "bob"]]

/-- Claim C1 witness: the amended count theorem instantiated on a
two-row spreadsheet with distinct identifiers `"A"` and `"B"`. -/
theorem C1_count_distinct_witness :
    (process_certificates convOk sampleTemplate
        ([Value.vStr "id", Value.vStr "nm"] :: twoRows) []).2.2 = Except.ok twoRows.length
    ∧ fsNames (process_certificates convOk sampleTemplate
        ([Value.vStr "id", Value.vStr "nm"] :: twoRows) []).1
        = (twoRows.map (fun row => rowStem row ++ ".pdf")).reverse
    ∧ ((process_certificates convOk sampleTemplate
        ([Value.vStr "id", Value.vStr "nm"] :: twoRows) []).1).length = twoRows.length
    ∧ (process_certificates convOk sampleTemplate
        ([Value.vStr "id", Value.vStr "nm"] :: twoRows) []).2.1
        = twoRows.map (fun row => logMessage (idOf row) (nameOf row)) :=
  C1_count_distinct sampleTemplate ⟨[{ text := "" }]⟩ { text := "" }
    [Value.vStr "id", Value.vStr "nm"] twoRows rfl rfl (by decide) (by decide)

end CertificateMaker
